import Mathlib

/-!
Shallow embedding of the Epic EHR backend integration layer
(`src/server.js`, `src/files.js`, `src/file-uploads.js`).

The three JS files each build an RS256 client-assertion JWT (`generateJWT`),
exchange it for a bearer token (`getAccessToken`), and expose Express routes
that issue one or two upstream HTTP calls and wrap the result in a JSON
envelope.  Routes are modelled as pure functions from the inbound request and
the behaviour of the upstream servers (given as `AxiosResult` values, one per
potential upstream call) to the HTTP response produced and the ordered list of
upstream calls actually issued.
-/

namespace Epic

/-- JSON values, used for response bodies.  `obj` keeps the field list in
insertion order, as JavaScript object literals do; a field whose JS value is
`undefined` is omitted from the list, matching `JSON.stringify`. -/
inductive Json where
  | str (s : String)
  | bool (b : Bool)
  | num (n : Int)
  | null
  | obj (fields : List (String × Json))
  | arr (elems : List Json)

/-- Field lookup in a JSON object (`none` on non-objects or absent keys). -/
def Json.lookup : Json → String → Option Json
  | .obj fields, key => fields.lookup key
  | _, _ => none

/- Fixed Epic endpoints (src/server.js lines 17-21, identical constants in
src/files.js and src/file-uploads.js). -/

def EPIC_TOKEN_URL : String :=
  "https://fhir.epic.com/interconnect-fhir-oauth/oauth2/token"

def EPIC_FHIR_URL : String :=
  "https://fhir.epic.com/interconnect-fhir-oauth/api/FHIR/R4"

/-- Environment-derived configuration (CLIENT_ID, ISSUER, private key). -/
structure Config where
  ISSUER : String
  CLIENT_ID : String
  PRIVATE_KEY : String
  deriving DecidableEq, Repr

/-- The claims object passed to `jwt.sign` (src/server.js lines 27-33). -/
structure JwtPayload where
  iss : String
  sub : String
  aud : String
  exp : Nat
  jti : String
  deriving DecidableEq, Repr

/-- Result of `jwt.sign(payload, PRIVATE_KEY, { algorithm: 'RS256' })`,
kept abstract as the signed payload together with the algorithm name and the
key material used. -/
structure SignedJwt where
  payload : JwtPayload
  alg : String
  key : String
  deriving DecidableEq, Repr

/-- Model of `generateJWT` (src/server.js lines 26-39; the copies in src/files.js
lines 22-31 and src/file-uploads.js lines 22-32 are identical).  `nowMs` is
the value of `Date.now()` (milliseconds); `rand` is the value of
`Math.random().toString(36).substring(2)`, the fraction digits of the random
draw in base 36. -/
def generateJWT (cfg : Config) (nowMs : Nat) (rand : String) : SignedJwt :=
  { payload :=
      { iss := cfg.ISSUER
        sub := cfg.CLIENT_ID
        aud := EPIC_TOKEN_URL
        exp := nowMs / 1000 + 300
        jti := rand }
    alg := "RS256"
    key := cfg.PRIVATE_KEY }

/- Token exchange -/

/-- The authorization server's raw answer: HTTP status plus the
`access_token` field of the JSON body (`none` when the field is absent). -/
structure TokenResponse where
  status : Nat
  access_token : Option String
  deriving DecidableEq, Repr

/-- Outcome of attempting one upstream HTTP call: a response was delivered
(any status), or the request failed at the network level. -/
inductive AxiosResult (α : Type) where
  | ok (response : α)
  | netError (msg : String)
  deriving DecidableEq, Repr

/-- Errors thrown out of an axios call: axios rejects with the response for a
non-2xx status, or with a network error. -/
inductive TokenError where
  | httpError (response : TokenResponse)
  | network (msg : String)
  deriving DecidableEq, Repr

/-- The `error.message` string of an axios error, as interpolated into the
route error envelopes. -/
def TokenError.message : TokenError → String
  | .httpError r => "Request failed with status code " ++ toString r.status
  | .network m => m

/-- Axios resolves only statuses in [200, 300). -/
def is2xx (s : Nat) : Bool := decide (200 ≤ s) && decide (s < 300)

/-- Model of `axios.post(EPIC_TOKEN_URL, ...)`: resolves on 2xx, rejects otherwise. -/
def axiosPostToken (server : AxiosResult TokenResponse) :
    Except TokenError TokenResponse :=
  match server with
  | .ok r => if is2xx r.status then .ok r else .error (.httpError r)
  | .netError m => .error (.network m)

/-- Model of `getAccessToken` (src/server.js lines 44-70; src/files.js lines 34-49 and
src/file-uploads.js lines 37-50 behave identically for the caller): POSTs the
assertion to the token endpoint and returns `response.data.access_token`.
The catch blocks log and rethrow, so errors propagate unchanged; a 2xx body
without `access_token` yields `undefined` (`none`), not an error. -/
def getAccessToken (server : AxiosResult TokenResponse) :
    Except TokenError (Option String) :=
  match axiosPostToken server with
  | .ok r => .ok r.access_token
  | .error e => .error e

/- Upstream call traces -/

inductive Method where
  | get
  | post
  deriving DecidableEq, Repr

/-- One upstream HTTP call as issued by the backend (request line and
headers; bodies are not needed by any property below). -/
structure UpstreamCall where
  method : Method
  url : String
  headers : List (String × String)
  body : Option Json := none

/-- The token-exchange POST (same in all three files). -/
def tokenCall : UpstreamCall :=
  { method := .post
    url := EPIC_TOKEN_URL
    headers := [("Content-Type", "application/x-www-form-urlencoded")] }

/-- Model of `Bearer ${accessToken}`: JS template-literal interpolation prints an
`undefined` token as the string "undefined". -/
def bearerValue (tok : Option String) : String :=
  "Bearer " ++ (match tok with | some t => t | none => "undefined")

/-- Response produced by a route: HTTP status and JSON body. -/
structure RouteResult where
  status : Nat
  body : Json

/- Base64, modelling `Buffer.from(s).toString('base64')` and
`Buffer.from(s, 'base64').toString('utf-8')` at the byte level.  Byte
sequences are `List Nat` with entries below 256 (the UTF-8 bytes of the JS
string). -/

/-- The standard base64 alphabet. -/
def b64Alphabet : String :=
  "ABCDEFGHIJKLMNOPQRSTUVWXYZabcdefghijklmnopqrstuvwxyz0123456789+/"

/-- Character for a sextet value. -/
def b64Char (n : Nat) : Char := b64Alphabet.toList.getD n 'A'

/-- Sextet value of an alphabet character (`none` off the alphabet). -/
def b64Val (c : Char) : Option Nat := b64Alphabet.toList.indexOf? c

/-- Base64 encoding of a byte sequence, three bytes to four characters with
`=` padding. -/
def base64Encode : List Nat → List Char
  | [] => []
  | [a] => [b64Char (a / 4), b64Char (a % 4 * 16), '=', '=']
  | [a, b] =>
      [b64Char (a / 4), b64Char (a % 4 * 16 + b / 16), b64Char (b % 16 * 4), '=']
  | a :: b :: c :: rest =>
      b64Char (a / 4) :: b64Char (a % 4 * 16 + b / 16) ::
        b64Char (b % 16 * 4 + c / 64) :: b64Char (c % 64) :: base64Encode rest

/-- Base64 decoding of a character sequence (`none` on malformed input). -/
def base64Decode : List Char → Option (List Nat)
  | [] => some []
  | c1 :: c2 :: c3 :: c4 :: rest =>
      match b64Val c1, b64Val c2 with
      | some s1, some s2 =>
          if c3 = '=' then
            if c4 = '=' ∧ rest = [] then some [s1 * 4 + s2 / 16] else none
          else
            match b64Val c3 with
            | some s3 =>
                if c4 = '=' then
                  if rest = [] then
                    some [s1 * 4 + s2 / 16, s2 % 16 * 16 + s3 / 4]
                  else none
                else
                  match b64Val c4, base64Decode rest with
                  | some s4, some bs =>
                      some ((s1 * 4 + s2 / 16) :: (s2 % 16 * 16 + s3 / 4) ::
                        (s3 % 4 * 64 + s4) :: bs)
                  | _, _ => none
            | none => none
      | _, _ => none
  | _ => none

/- `new URLSearchParams(obj).toString()`: serialize an ordered key/value list
using `application/x-www-form-urlencoded` percent-encoding (space becomes
`+`, bytes outside the unreserved set become `%XX` over the code point's
UTF-8 bytes). -/

/-- Characters left verbatim by urlencoded serialization. -/
def isUrlencodedSafe (c : Char) : Bool :=
  (decide ('A' ≤ c) && decide (c ≤ 'Z')) ||
  (decide ('a' ≤ c) && decide (c ≤ 'z')) ||
  (decide ('0' ≤ c) && decide (c ≤ '9')) ||
  c = '*' || c = '-' || c = '.' || c = '_'

/-- Uppercase hexadecimal digit. -/
def hexDigit (n : Nat) : Char := "0123456789ABCDEF".toList.getD n '0'

/-- Model of `%XX` escape of one byte. -/
def percentByte (b : Nat) : List Char := ['%', hexDigit (b / 16), hexDigit (b % 16)]

/-- UTF-8 bytes of a code point. -/
def utf8Bytes (c : Char) : List Nat :=
  let n := c.toNat
  if n < 128 then [n]
  else if n < 2048 then [192 + n / 64, 128 + n % 64]
  else if n < 65536 then [224 + n / 4096, 128 + n / 64 % 64, 128 + n % 64]
  else [240 + n / 262144, 128 + n / 4096 % 64, 128 + n / 64 % 64, 128 + n % 64]

/-- Serialization of one character. -/
def encodeFormChar (c : Char) : List Char :=
  if c = ' ' then ['+']
  else if isUrlencodedSafe c then [c]
  else ((utf8Bytes c).map percentByte).flatten

/-- Serialization of one string. -/
def encodeFormStr (s : String) : String :=
  String.mk ((s.toList.map encodeFormChar).flatten)

/-- Model of `new URLSearchParams(params).toString()` over an ordered parameter
list. -/
def urlSearchParamsToString (params : List (String × String)) : String :=
  String.intercalate "&"
    (params.map (fun p => encodeFormStr p.1 ++ "=" ++ encodeFormStr p.2))

/- JavaScript truthiness for the optional strings the routes test with
`!x` / `x ? _ : _` / `x || d`: `undefined` and the empty string are falsy. -/

/-- Truthiness of a possibly-absent string value. -/
def jsTruthy : Option String → Bool
  | none => false
  | some s => !(s = "")

/-- Model of `x || dflt` on a possibly-absent string. -/
def jsOr (x : Option String) (dflt : String) : String :=
  match x with
  | some s => if s = "" then dflt else s
  | none => dflt

/- Routes of src/server.js. -/

/-- Request issued by `callEpicAPI` (src/server.js lines 75-91). -/
def epicGetCall (endpoint : String) (tok : Option String) : UpstreamCall :=
  { method := .get
    url := EPIC_FHIR_URL ++ "/" ++ endpoint
    headers := [("Authorization", bearerValue tok), ("Accept", "application/json")] }

/-- Generic FHIR-call outcome: a body (`Json`) or an axios error, with the
error message surfaced into the envelope. -/
inductive FhirError where
  | httpError (status : Nat) (body : Json)
  | network (msg : String)

/-- Model of `error.message` of a FHIR-call error. -/
def FhirError.message : FhirError → String
  | .httpError s _ => "Request failed with status code " ++ toString s
  | .network m => m

/-- Outcome of one upstream FHIR call, supplied as part of the scenario. -/
structure FhirOutcome where
  status : Nat
  body : Json

/-- Axios semantics for a GET/POST to the FHIR server. -/
def axiosFhir (server : AxiosResult FhirOutcome) : Except FhirError Json :=
  match server with
  | .ok r => if is2xx r.status then .ok r.body else .error (.httpError r.status r.body)
  | .netError m => .error (.network m)

/-- Standard success envelope `{success: true, message, data}`. -/
def successEnvelope (message : String) (data : Json) : Json :=
  .obj [("success", .bool true), ("message", .str message), ("data", data)]

/-- Standard error envelope `{success: false, message, error}` with a string
error (`error: error.message`). -/
def errorEnvelope (message : String) (err : String) : Json :=
  .obj [("success", .bool false), ("message", .str message), ("error", .str err)]

/-- Error envelope carrying a JSON error value
(`error: error.response ? error.response.data : error.message`). -/
def errorEnvelopeJ (message : String) (err : Json) : Json :=
  .obj [("success", .bool false), ("message", .str message), ("error", err)]

/-- The JSON body of the authorization server's answer as modelled (only its
`access_token` field is tracked). -/
def TokenResponse.bodyJson (r : TokenResponse) : Json :=
  .obj (match r.access_token with
    | some t => [("access_token", Json.str t)]
    | none => [])

/-- Model of `error.response ? error.response.data : error.message` for token errors. -/
def TokenError.envelopeValue : TokenError → Json
  | .httpError r => r.bodyJson
  | .network m => .str m

/-- Model of `error.response ? error.response.data : error.message` for FHIR errors. -/
def FhirError.envelopeValue : FhirError → Json
  | .httpError _ body => body
  | .network m => .str m

/-- Model of `GET /patient` (src/server.js lines 148-170): fixed-ID Patient read.
`tokenServer` is the authorization server's behaviour, `fhirServer` the FHIR
server's behaviour for the Patient read; the result is the HTTP response
paired with the ordered list of upstream calls issued. -/
def patientRoute (tokenServer : AxiosResult TokenResponse)
    (fhirServer : AxiosResult FhirOutcome) : RouteResult × List UpstreamCall :=
  match getAccessToken tokenServer with
  | .error e =>
      (⟨500, errorEnvelope "Error fetching data" e.message⟩, [tokenCall])
  | .ok tok =>
      let call := epicGetCall "Patient/erXuFYUfucBZaryVksYEcMg3" tok
      match axiosFhir fhirServer with
      | .ok data =>
          (⟨200, successEnvelope "Data fetched successfully" data⟩, [tokenCall, call])
      | .error e =>
          (⟨500, errorEnvelope "Error fetching data" e.message⟩, [tokenCall, call])

/-- Model of `GET /patient-search` (src/server.js lines 206-231): forwards the inbound
query parameters (ordered key/value pairs as parsed by Express) to
`Patient?<query>`. -/
def patientSearchRoute (query : List (String × String))
    (tokenServer : AxiosResult TokenResponse)
    (fhirServer : AxiosResult FhirOutcome) : RouteResult × List UpstreamCall :=
  match getAccessToken tokenServer with
  | .error e =>
      (⟨500, errorEnvelopeJ "Error searching patient" e.envelopeValue⟩, [tokenCall])
  | .ok tok =>
      let endpoint := "Patient?" ++ urlSearchParamsToString query
      let call := epicGetCall endpoint tok
      match axiosFhir fhirServer with
      | .ok data =>
          (⟨200, successEnvelope "Patient search results retrieved successfully" data⟩,
            [tokenCall, call])
      | .error e =>
          (⟨500, errorEnvelopeJ "Error searching patient" e.envelopeValue⟩,
            [tokenCall, call])

/- Routes of src/files.js. -/

/-- Upstream answer to the bulk-export kickoff: status, the
`Content-Location` response header (axios exposes it lowercased as
`headers['content-location']`), and the body. -/
structure BulkExportOutcome where
  status : Nat
  contentLocation : Option String
  body : Json

/-- Axios semantics for the `$export` GET. -/
def axiosBulkExport (server : AxiosResult BulkExportOutcome) :
    Except FhirError BulkExportOutcome :=
  match server with
  | .ok r => if is2xx r.status then .ok r else .error (.httpError r.status r.body)
  | .netError m => .error (.network m)

/-- Model of `GET /bulk-export` (src/files.js lines 52-76): defaults `groupId` to
"default-group-id" and `types` to "Patient,Observation,Encounter" via `||`,
issues one GET to `Group/{groupId}/$export?_type={types}` with
`Prefer: respond-async`, and reports the `Content-Location` header as
`statusUrl` (the field is dropped from the JSON when the header is absent,
as `JSON.stringify` drops `undefined`). -/
def bulkExportRoute (groupId types : Option String)
    (tokenServer : AxiosResult TokenResponse)
    (fhirServer : AxiosResult BulkExportOutcome) :
    RouteResult × List UpstreamCall :=
  match getAccessToken tokenServer with
  | .error e =>
      (⟨500, errorEnvelope "Error initiating bulk export" e.message⟩, [tokenCall])
  | .ok tok =>
      let gid := jsOr groupId "default-group-id"
      let resourceTypes := jsOr types "Patient,Observation,Encounter"
      let call : UpstreamCall :=
        { method := .get
          url := EPIC_FHIR_URL ++ "/Group/" ++ gid ++ "/$export?_type=" ++ resourceTypes
          headers := [("Authorization", bearerValue tok),
                      ("Accept", "application/fhir+json"),
                      ("Prefer", "respond-async")] }
      match axiosBulkExport fhirServer with
      | .ok r =>
          (⟨200, .obj ([("success", .bool true),
                        ("message", .str "Bulk data export initiated")] ++
              (match r.contentLocation with
               | some u => [("statusUrl", Json.str u)]
               | none => []))⟩,
            [tokenCall, call])
      | .error e =>
          (⟨500, errorEnvelope "Error initiating bulk export" e.message⟩,
            [tokenCall, call])

/-- The 400 body for a missing required query parameter in src/files.js. -/
def missingParamBody (message : String) : Json :=
  .obj [("success", .bool false), ("message", .str message)]

/-- Model of `GET /bulk-status` (src/files.js lines 79-94): fetches the token first,
then rejects a missing (or empty, JS-falsy) `statusUrl` with 400, else GETs
the caller-supplied status URL. -/
def bulkStatusRoute (statusUrl : Option String)
    (tokenServer : AxiosResult TokenResponse)
    (fhirServer : AxiosResult FhirOutcome) : RouteResult × List UpstreamCall :=
  match getAccessToken tokenServer with
  | .error e =>
      (⟨500, errorEnvelope "Error checking export status" e.message⟩, [tokenCall])
  | .ok tok =>
      if jsTruthy statusUrl then
        let call : UpstreamCall :=
          { method := .get
            url := statusUrl.getD ""
            headers := [("Authorization", bearerValue tok),
                        ("Accept", "application/json")] }
        match axiosFhir fhirServer with
        | .ok data =>
            (⟨200, successEnvelope "Export status retrieved" data⟩, [tokenCall, call])
        | .error e =>
            (⟨500, errorEnvelope "Error checking export status" e.message⟩,
              [tokenCall, call])
      else
        (⟨400, missingParamBody "Missing statusUrl parameter"⟩, [tokenCall])

/-- Model of `GET /bulk-download` (src/files.js lines 97-114): fetches the token
first, then rejects a missing (JS-falsy) `fileUrl` with 400, else GETs the
caller-supplied file URL and streams it through (the streamed body is out of
scope; the success result is modelled with a `null` body). -/
def bulkDownloadRoute (fileUrl : Option String)
    (tokenServer : AxiosResult TokenResponse)
    (fhirServer : AxiosResult FhirOutcome) : RouteResult × List UpstreamCall :=
  match getAccessToken tokenServer with
  | .error e =>
      (⟨500, errorEnvelope "Error downloading bulk data" e.message⟩, [tokenCall])
  | .ok tok =>
      if jsTruthy fileUrl then
        let call : UpstreamCall :=
          { method := .get
            url := fileUrl.getD ""
            headers := [("Authorization", bearerValue tok)] }
        match axiosFhir fhirServer with
        | .ok _ => (⟨200, .null⟩, [tokenCall, call])
        | .error e =>
            (⟨500, errorEnvelope "Error downloading bulk data" e.message⟩,
              [tokenCall, call])
      else
        (⟨400, missingParamBody "Missing fileUrl parameter"⟩, [tokenCall])

/- UTF-8 at the byte level, to model `Buffer.from(str)` (string to UTF-8
bytes) and `buf.toString('utf-8')` (bytes back to string).  `utf8Bytes`
(defined above for the urlencoder) encodes one code point. -/

/-- UTF-8 bytes of a whole string, `Buffer.from(s)`. -/
def strUtf8 (s : String) : List Nat := (s.toList.map utf8Bytes).flatten

/-- Decode the first code point of a UTF-8 byte stream: given the leading
byte and the remaining bytes, return the code point and the bytes after it
(`none` on truncated or malformed sequences). -/
def utf8First (b1 : Nat) (rest : List Nat) : Option (Nat × List Nat) :=
  if b1 < 128 then some (b1, rest)
  else if b1 < 224 then
    match rest with
    | b2 :: rest2 =>
        if 192 ≤ b1 ∧ 128 ≤ b2 ∧ b2 < 192 then
          some ((b1 - 192) * 64 + (b2 - 128), rest2)
        else none
    | _ => none
  else if b1 < 240 then
    match rest with
    | b2 :: b3 :: rest3 =>
        if (128 ≤ b2 ∧ b2 < 192) ∧ (128 ≤ b3 ∧ b3 < 192) then
          some ((b1 - 224) * 4096 + (b2 - 128) * 64 + (b3 - 128), rest3)
        else none
    | _ => none
  else
    match rest with
    | b2 :: b3 :: b4 :: rest4 =>
        if (128 ≤ b2 ∧ b2 < 192) ∧ (128 ≤ b3 ∧ b3 < 192) ∧ (128 ≤ b4 ∧ b4 < 192) then
          some ((b1 - 240) * 262144 + (b2 - 128) * 4096 + (b3 - 128) * 64 + (b4 - 128),
            rest4)
        else none
    | _ => none

/-- Decode a UTF-8 byte stream into its code points. -/
def utf8Points : List Nat → Option (List Nat)
  | [] => some []
  | b1 :: rest =>
      match h : utf8First b1 rest with
      | some (n, rest2) => (utf8Points rest2).map (n :: ·)
      | none => none
termination_by bs => bs.length
decreasing_by
  simp only [List.length_cons]
  have hlen : rest2.length ≤ rest.length := by
    rcases rest with _ | ⟨b2, _ | ⟨b3, _ | ⟨b4, tl⟩⟩⟩ <;>
      (rw [utf8First] at h; split_ifs at h <;> simp_all)
    all_goals try omega
    all_goals (intros; simp_all)
  omega

/-- Model of `buf.toString('utf-8')` on a decodable byte sequence. -/
def utf8ToStr (bs : List Nat) : Option String :=
  (utf8Points bs).map (fun ps => String.mk (ps.map Char.ofNat))

/- Routes of src/file-uploads.js. -/

/-- Model of `Buffer.from(s).toString('base64')`. -/
def jsStrToBase64 (s : String) : String := String.mk (base64Encode (strUtf8 s))

/-- Model of `Buffer.from(s, 'base64').toString('utf-8')` on well-formed base64 of
valid UTF-8 (the only inputs any property below evaluates it at); Node's
lenient recovery on malformed input is not modelled. -/
def bufferBase64ToUtf8 (s : String) : String :=
  ((base64Decode s.toList).bind utf8ToStr).getD ""

/-- Indexing into a JSON array. -/
def Json.arrGet : Json → Nat → Option Json
  | .arr l, i => l.get? i
  | _, _ => none

/-- The DocumentReference object literal built by `POST /upload-url`
(src/file-uploads.js lines 76-99): the supplied document URL is stored as
base64-encoded `text/plain` attachment data, and an encounter context is
attached only when `encounterId` is truthy.  `dateIso` is the value of
`new Date().toISOString()`. -/
def mkDocReference (documentUrl patientId : String) (encounterId : Option String)
    (dateIso : String) : Json :=
  .obj ([("resourceType", .str "DocumentReference"),
         ("status", .str "current"),
         ("type", .obj [("coding", .arr [.obj [("system", .str "http://loinc.org"),
            ("code", .str "11506-3"), ("display", .str "Scanned Document")]])]),
         ("subject", .obj [("reference", .str ("Patient/" ++ patientId))]),
         ("date", .str dateIso),
         ("content", .arr [.obj [("attachment",
            .obj [("contentType", .str "text/plain"),
                  ("data", .str (jsStrToBase64 documentUrl))])]])] ++
    (if jsTruthy encounterId then
       [("context", .obj [("encounter",
          .arr [.obj [("reference", .str ("Encounter/" ++ encounterId.getD ""))]])])]
     else []))

/-- Upstream answer to the DocumentReference POST: status, the `Location`
response header, and the body. -/
structure DocPostOutcome where
  status : Nat
  location : Option String
  body : Json

/-- Axios semantics for the DocumentReference POST. -/
def axiosDocPost (server : AxiosResult DocPostOutcome) :
    Except FhirError DocPostOutcome :=
  match server with
  | .ok r => if is2xx r.status then .ok r else .error (.httpError r.status r.body)
  | .netError m => .error (.network m)

/-- Model of `str.split('/')` over the characters of a string: split on every slash,
keeping empty segments, as JavaScript `String.prototype.split` does. -/
def splitOnSlash : List Char → List (List Char)
  | [] => [[]]
  | c :: rest =>
      let r := splitOnSlash rest
      if c = '/' then [] :: r
      else
        match r with
        | h :: t => (c :: h) :: t
        | [] => [[c]]

/-- Model of `locationHeader ? locationHeader.split('/').pop() : null`
(src/file-uploads.js line 110): the empty header is JS-falsy; `pop()` takes
the last segment. -/
def extractDocumentId (locationHeader : Option String) : Option String :=
  match locationHeader with
  | some l =>
      if l = "" then none
      else some (String.mk ((splitOnSlash l.toList).getLastD []))
  | none => none

/-- Model of `POST /upload-url` (src/file-uploads.js lines 70-122).  The
`authenticate` middleware (lines 55-62) fetches the access token BEFORE the
handler's parameter validation runs; a token failure is a 500
`Authentication failed`.  The handler then validates `documentUrl` and
`patientId`, builds the DocumentReference, POSTs it, and extracts the
document id from the `Location` header. -/
def uploadUrlRoute (documentUrl patientId encounterId : Option String)
    (dateIso : String) (tokenServer : AxiosResult TokenResponse)
    (docServer : AxiosResult DocPostOutcome) : RouteResult × List UpstreamCall :=
  match getAccessToken tokenServer with
  | .error e =>
      (⟨500, errorEnvelope "Authentication failed" e.message⟩, [tokenCall])
  | .ok tok =>
      if jsTruthy documentUrl && jsTruthy patientId then
        let docRef := mkDocReference (documentUrl.getD "") (patientId.getD "")
          encounterId dateIso
        let call : UpstreamCall :=
          { method := .post
            url := EPIC_FHIR_URL ++ "/DocumentReference"
            headers := [("Content-Type", "application/json"),
                        ("Authorization", bearerValue tok)]
            body := some docRef }
        match axiosDocPost docServer with
        | .error e =>
            (⟨500, errorEnvelopeJ "Error uploading document URL" e.envelopeValue⟩,
              [tokenCall, call])
        | .ok r =>
            match extractDocumentId r.location with
            | some docId =>
                if docId = "" then
                  (⟨500, .obj [("success", .bool false),
                      ("message", .str "Epic did not return a Document ID")]⟩,
                    [tokenCall, call])
                else
                  (⟨200, .obj [("success", .bool true), ("documentId", .str docId)]⟩,
                    [tokenCall, call])
            | none =>
                (⟨500, .obj [("success", .bool false),
                    ("message", .str "Epic did not return a Document ID")]⟩,
                  [tokenCall, call])
      else
        (⟨400, .obj [("error", .str "documentUrl and patientId are required")]⟩,
          [tokenCall])

/-- One entry of a DocumentReference `content` array as read back from the
FHIR server (only the fields the route inspects). -/
structure Attachment where
  contentType : Option String
  data : Option String
  url : Option String

structure ContentItem where
  attachment : Option Attachment

/-- Model of the TypeError message produced by evaluating
`attachments[0].attachment.url` when the first content item has no
`attachment` object (src/file-uploads.js line 138); the route's catch block
reports it via `error.message`. -/
def undefinedUrlReadMessage : String :=
  "Cannot read properties of undefined (reading 'url')"

/-- Upstream answer to the DocumentReference GET: status, the body's
`content` field as parsed (`none` when absent), and the raw body for error
envelopes. -/
structure DocRefReadOutcome where
  status : Nat
  content : Option (List ContentItem)
  body : Json

def axiosDocRead (server : AxiosResult DocRefReadOutcome) :
    Except FhirError DocRefReadOutcome :=
  match server with
  | .ok r => if is2xx r.status then .ok r else .error (.httpError r.status r.body)
  | .netError m => .error (.network m)

/-- The Binary resource body (`binaryResponse.data`): `none` models an
absent/empty (JS-falsy) body; `data` is its base64 `data` field. -/
structure BinaryBody where
  data : Option String

/-- Upstream answer to the Binary GET, with the raw body kept for the
`epicResponse` field of the data-shape error. -/
structure BinaryReadOutcome where
  status : Nat
  body : Option BinaryBody
  raw : Json

def axiosBinaryRead (server : AxiosResult BinaryReadOutcome) :
    Except FhirError BinaryReadOutcome :=
  match server with
  | .ok r => if is2xx r.status then .ok r else .error (.httpError r.status r.raw)
  | .netError m => .error (.network m)

/-- Model of `GET /document/:documentId` (src/file-uploads.js lines 127-173): reads
the DocumentReference, follows `content[0].attachment.url` to the Binary
resource (404 with a specific message when the content array is missing or
empty, or when the attachment has no `url`), checks the Binary's `data`
field (500 with a specific message when missing), and base64-decodes it back
to the document URL.  When the first content item has no `attachment`
object, `attachments[0].attachment.url` (line 138) throws a TypeError that
the catch block reports as the generic 500 "Error retrieving document". -/
def documentRoute (documentId : String) (tokenServer : AxiosResult TokenResponse)
    (docServer : AxiosResult DocRefReadOutcome)
    (binServer : AxiosResult BinaryReadOutcome) : RouteResult × List UpstreamCall :=
  match getAccessToken tokenServer with
  | .error e =>
      (⟨500, errorEnvelope "Authentication failed" e.message⟩, [tokenCall])
  | .ok tok =>
      let docCall : UpstreamCall :=
        { method := .get
          url := EPIC_FHIR_URL ++ "/DocumentReference/" ++ documentId
          headers := [("Authorization", bearerValue tok)] }
      match axiosDocRead docServer with
      | .error e =>
          (⟨500, errorEnvelopeJ "Error retrieving document" e.envelopeValue⟩,
            [tokenCall, docCall])
      | .ok r =>
          match r.content.getD [] with
          | [] =>
              (⟨404, .obj [("success", .bool false),
                  ("message", .str "No Binary reference found in DocumentReference")]⟩,
                [tokenCall, docCall])
          | item :: _ =>
              match item.attachment with
              | none =>
                  (⟨500, errorEnvelopeJ "Error retrieving document"
                      (.str undefinedUrlReadMessage)⟩,
                    [tokenCall, docCall])
              | some att =>
                  if jsTruthy att.url then
                    let binCall : UpstreamCall :=
                      { method := .get
                        url := EPIC_FHIR_URL ++ "/" ++ att.url.getD ""
                        headers := [("Authorization", bearerValue tok)] }
                    match axiosBinaryRead binServer with
                    | .error e =>
                        (⟨500, errorEnvelopeJ "Error retrieving document"
                            e.envelopeValue⟩,
                          [tokenCall, docCall, binCall])
                    | .ok rb =>
                        match rb.body with
                        | some bb =>
                            if jsTruthy bb.data then
                              (⟨200, .obj [("success", .bool true),
                                  ("documentUrl",
                                    .str (bufferBase64ToUtf8 (bb.data.getD "")))]⟩,
                                [tokenCall, docCall, binCall])
                            else
                              (⟨500, .obj [("success", .bool false),
                                  ("message",
                                    .str "Binary resource does not contain data"),
                                  ("epicResponse", rb.raw)]⟩,
                                [tokenCall, docCall, binCall])
                        | none =>
                            (⟨500, .obj [("success", .bool false),
                                ("message",
                                  .str "Binary resource does not contain data"),
                                ("epicResponse", rb.raw)]⟩,
                              [tokenCall, docCall, binCall])
                  else
                    (⟨404, .obj [("success", .bool false),
                        ("message",
                          .str "No Binary reference found in DocumentReference")]⟩,
                      [tokenCall, docCall])

theorem b64Val_b64Char : ∀ n, n < 64 → b64Val (b64Char n) = some n := by decide

theorem b64Char_ne_eq : ∀ n, n < 64 → b64Char n ≠ '=' := by decide

/-- Round trip: decoding an encoding recovers the bytes. -/
theorem base64Decode_base64Encode :
    ∀ bs : List Nat, (∀ b ∈ bs, b < 256) →
      base64Decode (base64Encode bs) = some bs
  | [], _ => rfl
  | [a], h => by
      have ha : a < 256 := h a (by simp)
      have h1 : a / 4 < 64 := by omega
      have h2 : a % 4 * 16 < 64 := by omega
      simp only [base64Encode, base64Decode, b64Val_b64Char _ h1,
        b64Val_b64Char _ h2]
      simp only [reduceIte, and_self, if_true, List.cons.injEq, and_true,
        Option.some.injEq]
      omega
  | [a, b], h => by
      have ha : a < 256 := h a (by simp)
      have hb : b < 256 := h b (by simp)
      have h1 : a / 4 < 64 := by omega
      have h2 : a % 4 * 16 + b / 16 < 64 := by omega
      have h3 : b % 16 * 4 < 64 := by omega
      simp only [base64Encode, base64Decode, b64Val_b64Char _ h1,
        b64Val_b64Char _ h2, b64Val_b64Char _ h3]
      simp only [reduceIte, and_self, if_true]
      rw [if_neg (b64Char_ne_eq _ h3)]
      simp only [List.cons.injEq, and_true, Option.some.injEq]
      omega
  | a :: b :: c :: rest, h => by
      have ha : a < 256 := h a (by simp)
      have hb : b < 256 := h b (by simp)
      have hc : c < 256 := h c (by simp)
      have ih := base64Decode_base64Encode rest
        (fun x hx => h x (by simp [hx]))
      have h1 : a / 4 < 64 := by omega
      have h2 : a % 4 * 16 + b / 16 < 64 := by omega
      have h3 : b % 16 * 4 + c / 64 < 64 := by omega
      have h4 : c % 64 < 64 := by omega
      simp only [base64Encode, base64Decode, b64Val_b64Char _ h1,
        b64Val_b64Char _ h2, b64Val_b64Char _ h3, b64Val_b64Char _ h4, ih]
      rw [if_neg (b64Char_ne_eq _ h3), if_neg (b64Char_ne_eq _ h4)]
      simp only [List.cons.injEq, and_true, Option.some.injEq]
      omega

theorem utf8Points_cons {b1 n : Nat} {rest rest2 : List Nat}
    (h : utf8First b1 rest = some (n, rest2)) :
    utf8Points (b1 :: rest) = (utf8Points rest2).map (n :: ·) := by
  rw [utf8Points]
  split <;> simp_all

theorem utf8First_ascii {b1 : Nat} (h : b1 < 128) (rest : List Nat) :
    utf8First b1 rest = some (b1, rest) := by
  simp [utf8First, h]

theorem utf8First_two {b1 b2 : Nat} (rest : List Nat)
    (h1 : 192 ≤ b1 ∧ b1 < 224) (h2 : 128 ≤ b2 ∧ b2 < 192) :
    utf8First b1 (b2 :: rest) = some ((b1 - 192) * 64 + (b2 - 128), rest) := by
  have n1 : ¬ b1 < 128 := by omega
  simp [utf8First, n1, h1.1, h1.2, h2.1, h2.2]

theorem utf8First_three {b1 b2 b3 : Nat} (rest : List Nat)
    (h1 : 224 ≤ b1 ∧ b1 < 240) (h2 : 128 ≤ b2 ∧ b2 < 192) (h3 : 128 ≤ b3 ∧ b3 < 192) :
    utf8First b1 (b2 :: b3 :: rest) =
      some ((b1 - 224) * 4096 + (b2 - 128) * 64 + (b3 - 128), rest) := by
  have n1 : ¬ b1 < 128 := by omega
  have n2 : ¬ b1 < 224 := by omega
  simp [utf8First, n1, n2, h1.2, h2.1, h2.2, h3.1, h3.2]

theorem utf8First_four {b1 b2 b3 b4 : Nat} (rest : List Nat)
    (h1 : 240 ≤ b1) (h2 : 128 ≤ b2 ∧ b2 < 192) (h3 : 128 ≤ b3 ∧ b3 < 192)
    (h4 : 128 ≤ b4 ∧ b4 < 192) :
    utf8First b1 (b2 :: b3 :: b4 :: rest) =
      some ((b1 - 240) * 262144 + (b2 - 128) * 4096 + (b3 - 128) * 64 + (b4 - 128),
        rest) := by
  have n1 : ¬ b1 < 128 := by omega
  have n2 : ¬ b1 < 224 := by omega
  have n3 : ¬ b1 < 240 := by omega
  simp [utf8First, n1, n2, n3, h2.1, h2.2, h3.1, h3.2, h4.1, h4.2]

theorem char_toNat_lt (c : Char) : c.toNat < 1114112 := by
  have h := c.valid
  rcases h with h | h
  · exact lt_trans h (by norm_num)
  · exact h.2

theorem utf8Bytes_lt_256 (c : Char) : ∀ b ∈ utf8Bytes c, b < 256 := by
  have hv : c.toNat < 1114112 := char_toNat_lt c
  intro b hb
  simp only [utf8Bytes] at hb
  split at hb
  · simp only [List.mem_singleton] at hb
    omega
  · split at hb
    · simp only [List.mem_cons, List.not_mem_nil, or_false] at hb
      rcases hb with h | h <;> omega
    · split at hb
      · simp only [List.mem_cons, List.not_mem_nil, or_false] at hb
        rcases hb with h | h | h <;> omega
      · simp only [List.mem_cons, List.not_mem_nil, or_false] at hb
        rcases hb with h | h | h | h <;> omega

theorem strUtf8_lt_256 (s : String) : ∀ b ∈ strUtf8 s, b < 256 := by
  intro b hb
  simp only [strUtf8, List.mem_flatten, List.mem_map] at hb
  obtain ⟨l, ⟨c, _, rfl⟩, hbl⟩ := hb
  exact utf8Bytes_lt_256 c b hbl

/-- Decoding the encoding of one code point at the head of a byte stream. -/
theorem utf8Points_utf8Bytes_append (c : Char) (rest : List Nat) :
    utf8Points (utf8Bytes c ++ rest) = (utf8Points rest).map (c.toNat :: ·) := by
  have hv : c.toNat < 1114112 := char_toNat_lt c
  rcases Nat.lt_or_ge c.toNat 128 with h1 | h1
  · have hb : utf8Bytes c = [c.toNat] := by
      simp only [utf8Bytes]
      rw [if_pos h1]
    rw [hb]
    simp only [List.cons_append, List.nil_append]
    exact utf8Points_cons (utf8First_ascii h1 rest)
  · rcases Nat.lt_or_ge c.toNat 2048 with h2 | h2
    · have hb : utf8Bytes c = [192 + c.toNat / 64, 128 + c.toNat % 64] := by
        simp only [utf8Bytes]
        rw [if_neg (by omega), if_pos (by omega)]
      rw [hb]
      simp only [List.cons_append, List.nil_append]
      have hf := @utf8First_two (192 + c.toNat / 64) (128 + c.toNat % 64) rest
        ⟨by omega, by omega⟩ ⟨by omega, by omega⟩
      rw [show (192 + c.toNat / 64 - 192) * 64 + (128 + c.toNat % 64 - 128) = c.toNat
        by omega] at hf
      exact utf8Points_cons hf
    · rcases Nat.lt_or_ge c.toNat 65536 with h3 | h3
      · have hb : utf8Bytes c =
            [224 + c.toNat / 4096, 128 + c.toNat / 64 % 64, 128 + c.toNat % 64] := by
          simp only [utf8Bytes]
          rw [if_neg (by omega), if_neg (by omega), if_pos (by omega)]
        rw [hb]
        simp only [List.cons_append, List.nil_append]
        have hf := @utf8First_three (224 + c.toNat / 4096) (128 + c.toNat / 64 % 64)
          (128 + c.toNat % 64) rest ⟨by omega, by omega⟩ ⟨by omega, by omega⟩
          ⟨by omega, by omega⟩
        rw [show (224 + c.toNat / 4096 - 224) * 4096 +
            (128 + c.toNat / 64 % 64 - 128) * 64 + (128 + c.toNat % 64 - 128) =
            c.toNat by omega] at hf
        exact utf8Points_cons hf
      · have hb : utf8Bytes c =
            [240 + c.toNat / 262144, 128 + c.toNat / 4096 % 64,
              128 + c.toNat / 64 % 64, 128 + c.toNat % 64] := by
          simp only [utf8Bytes]
          rw [if_neg (by omega), if_neg (by omega), if_neg (by omega)]
        rw [hb]
        simp only [List.cons_append, List.nil_append]
        have hf := @utf8First_four (240 + c.toNat / 262144) (128 + c.toNat / 4096 % 64)
          (128 + c.toNat / 64 % 64) (128 + c.toNat % 64) rest (by omega)
          ⟨by omega, by omega⟩ ⟨by omega, by omega⟩ ⟨by omega, by omega⟩
        rw [show (240 + c.toNat / 262144 - 240) * 262144 +
            (128 + c.toNat / 4096 % 64 - 128) * 4096 +
            (128 + c.toNat / 64 % 64 - 128) * 64 + (128 + c.toNat % 64 - 128) =
            c.toNat by omega] at hf
        exact utf8Points_cons hf

/-- UTF-8 round trip to code points on whole strings. -/
theorem utf8Points_strUtf8 (s : String) :
    utf8Points (strUtf8 s) = some (s.toList.map Char.toNat) := by
  suffices h : ∀ cs : List Char,
      utf8Points ((cs.map utf8Bytes).flatten) = some (cs.map Char.toNat) by
    exact h s.toList
  intro cs
  induction cs with
  | nil =>
      simp only [List.map_nil, List.flatten_nil]
      rw [utf8Points]
  | cons c cs ih =>
      simp only [List.map_cons, List.flatten_cons, utf8Points_utf8Bytes_append, ih]
      rfl

/-- UTF-8 round trip on whole strings. -/
theorem utf8ToStr_strUtf8 (s : String) : utf8ToStr (strUtf8 s) = some s := by
  rw [utf8ToStr, utf8Points_strUtf8]
  have hmap : ∀ l : List Char, (l.map Char.toNat).map Char.ofNat = l := by
    intro l
    induction l with
    | nil => rfl
    | cons c cs ih => simp [ih, Char.ofNat_toNat]
  simp only [Option.map]
  rw [hmap]
  rfl

/-- Encoding a string to base64 and decoding it back is the identity. -/
theorem bufferBase64ToUtf8_jsStrToBase64 (s : String) :
    bufferBase64ToUtf8 (jsStrToBase64 s) = s := by
  rw [bufferBase64ToUtf8, jsStrToBase64]
  have h1 : (String.mk (base64Encode (strUtf8 s))).toList = base64Encode (strUtf8 s) := rfl
  rw [h1, base64Decode_base64Encode (strUtf8 s) (strUtf8_lt_256 s)]
  show (utf8ToStr (strUtf8 s)).getD "" = s
  rw [utf8ToStr_strUtf8]
  rfl

theorem utf8Bytes_ne_nil (c : Char) : utf8Bytes c ≠ [] := by
  simp only [utf8Bytes]
  split_ifs <;> simp

theorem strUtf8_ne_nil {s : String} (h : s ≠ "") : strUtf8 s ≠ [] := by
  have hl : s.toList ≠ [] := by
    intro he
    apply h
    have : s.data = [] := he
    cases s
    simp_all
  rcases hc : s.toList with _ | ⟨c, cs⟩
  · exact absurd hc hl
  · simp only [strUtf8, hc, List.map_cons, List.flatten_cons]
    intro he
    rcases List.append_eq_nil.mp he with ⟨h1, -⟩
    exact utf8Bytes_ne_nil c h1

theorem base64Encode_ne_nil {bs : List Nat} (h : bs ≠ []) : base64Encode bs ≠ [] := by
  rcases bs with _ | ⟨a, _ | ⟨b, _ | ⟨c, rest⟩⟩⟩ <;> simp_all [base64Encode]

theorem jsStrToBase64_ne_empty {s : String} (h : s ≠ "") : jsStrToBase64 s ≠ "" := by
  rw [jsStrToBase64]
  intro he
  have hdata : base64Encode (strUtf8 s) = [] := congrArg String.data he
  exact base64Encode_ne_nil (strUtf8_ne_nil h) hdata

/-- C4.  Assertion Builder postcondition: every assertion built by
`generateJWT` from configuration `cfg` when `Date.now()` reads `nowMs`
milliseconds (so at Unix time `nowMs / 1000` seconds) carries `iss` = the
configured issuer, `sub` = the configured client identifier, `aud` = the
token endpoint URL, `exp` = that Unix time + 300 seconds, and is signed with
RS256 using the configured private key. -/
theorem generateJWT_claims (cfg : Config) (nowMs : Nat) (rand : String) :
    (generateJWT cfg nowMs rand).payload.iss = cfg.ISSUER ∧
    (generateJWT cfg nowMs rand).payload.sub = cfg.CLIENT_ID ∧
    (generateJWT cfg nowMs rand).payload.aud = EPIC_TOKEN_URL ∧
    (generateJWT cfg nowMs rand).payload.exp = nowMs / 1000 + 300 ∧
    (generateJWT cfg nowMs rand).alg = "RS256" ∧
    (generateJWT cfg nowMs rand).key = cfg.PRIVATE_KEY :=
  ⟨rfl, rfl, rfl, rfl, rfl, rfl⟩

/-- C6 counterexample.  Two calls of `generateJWT` in immediate succession
(here one second apart) whose underlying `Math.random()` draws coincide
produce the SAME `jti`: the code does not guarantee distinctness. -/
theorem generateJWT_same_rand_same_jti :
    (generateJWT ⟨"iss", "client", "key"⟩ 0 "0abc123").payload.jti =
      (generateJWT ⟨"iss", "client", "key"⟩ 1000 "0abc123").payload.jti := rfl

/-- C6 (amended).  The `jti` of an assertion is exactly the random draw
(`Math.random().toString(36).substring(2)`), so two assertions built in
succession have distinct `jti` exactly when their random draws differ;
nothing in the code prevents equal draws. -/
theorem jti_distinct_iff_rand_distinct (cfg cfg2 : Config) (t1 t2 : Nat)
    (r1 r2 : String) (h : r1 ≠ r2) :
    (generateJWT cfg t1 r1).payload.jti = r1 ∧
    (generateJWT cfg2 t2 r2).payload.jti = r2 ∧
    (generateJWT cfg t1 r1).payload.jti ≠ (generateJWT cfg2 t2 r2).payload.jti :=
  ⟨rfl, rfl, h⟩

theorem jti_distinct_witness :
    ("0a1" : String) ≠ "0b2" ∧
    (generateJWT ⟨"i", "c", "k"⟩ 0 "0a1").payload.jti ≠
      (generateJWT ⟨"i", "c", "k"⟩ 50 "0b2").payload.jti :=
  ⟨by decide,
    (jti_distinct_iff_rand_distinct ⟨"i", "c", "k"⟩ ⟨"i", "c", "k"⟩ 0 50 "0a1" "0b2"
      (by decide)).2.2⟩

/-- C8.  `GET /bulk-export?groupId=G1&types=Patient` issues exactly one
upstream GET, to `Group/G1/$export?_type=Patient`, carrying
`Prefer: respond-async`, and the route's `statusUrl` equals the upstream
`Content-Location` header value (independent of the upstream body); when the
header is absent the field is dropped. -/
theorem bulkExport_contract (t u : String) (body : Json) :
    bulkExportRoute (some "G1") (some "Patient") (.ok ⟨200, some t⟩)
        (.ok ⟨202, some u, body⟩) =
      (⟨200, .obj [("success", .bool true),
          ("message", .str "Bulk data export initiated"), ("statusUrl", .str u)]⟩,
        [tokenCall,
         { method := .get
           url := EPIC_FHIR_URL ++ "/Group/G1/$export?_type=Patient"
           headers := [("Authorization", "Bearer " ++ t),
                       ("Accept", "application/fhir+json"),
                       ("Prefer", "respond-async")] }]) ∧
    bulkExportRoute (some "G1") (some "Patient") (.ok ⟨200, some t⟩)
        (.ok ⟨202, none, body⟩) =
      (⟨200, .obj [("success", .bool true),
          ("message", .str "Bulk data export initiated")]⟩,
        [tokenCall,
         { method := .get
           url := EPIC_FHIR_URL ++ "/Group/G1/$export?_type=Patient"
           headers := [("Authorization", "Bearer " ++ t),
                       ("Accept", "application/fhir+json"),
                       ("Prefer", "respond-async")] }]) :=
  ⟨rfl, rfl⟩

/-- C9.  `GET /patient-search?family=Lopez&gender=Female` forwards exactly
`family=Lopez&gender=Female` as the upstream query string, unmodified and in
order, appended to the Patient search path. -/
theorem patientSearch_query_forwarding (t : String) (data : Json) :
    urlSearchParamsToString [("family", "Lopez"), ("gender", "Female")] =
      "family=Lopez&gender=Female" ∧
    (patientSearchRoute [("family", "Lopez"), ("gender", "Female")]
        (.ok ⟨200, some t⟩) (.ok ⟨200, data⟩)).2 =
      [tokenCall, epicGetCall "Patient?family=Lopez&gender=Female" (some t)] ∧
    (epicGetCall "Patient?family=Lopez&gender=Female" (some t)).url =
      EPIC_FHIR_URL ++ "/Patient?family=Lopez&gender=Female" :=
  ⟨rfl, rfl, rfl⟩

/-- C10.  When `GET /bulk-export` omits `groupId` the upstream path uses the
literal `default-group-id`; when it omits `types` the `_type` value is
`Patient,Observation,Encounter`; neither omission is rejected: the route
never answers 400 at all. -/
theorem bulkExport_defaults (t : String) (cl : Option String) (body : Json)
    (groupId types : Option String) (ts : AxiosResult TokenResponse)
    (fs : AxiosResult BulkExportOutcome) :
    (bulkExportRoute none none (.ok ⟨200, some t⟩) (.ok ⟨202, cl, body⟩)).2 =
      [tokenCall,
       { method := .get
         url := EPIC_FHIR_URL ++
           "/Group/default-group-id/$export?_type=Patient,Observation,Encounter"
         headers := [("Authorization", "Bearer " ++ t),
                     ("Accept", "application/fhir+json"),
                     ("Prefer", "respond-async")] }] ∧
    (bulkExportRoute none (some "Patient") (.ok ⟨200, some t⟩)
        (.ok ⟨202, cl, body⟩)).2 =
      [tokenCall,
       { method := .get
         url := EPIC_FHIR_URL ++ "/Group/default-group-id/$export?_type=Patient"
         headers := [("Authorization", "Bearer " ++ t),
                     ("Accept", "application/fhir+json"),
                     ("Prefer", "respond-async")] }] ∧
    (bulkExportRoute (some "G1") none (.ok ⟨200, some t⟩)
        (.ok ⟨202, cl, body⟩)).2 =
      [tokenCall,
       { method := .get
         url := EPIC_FHIR_URL ++
           "/Group/G1/$export?_type=Patient,Observation,Encounter"
         headers := [("Authorization", "Bearer " ++ t),
                     ("Accept", "application/fhir+json"),
                     ("Prefer", "respond-async")] }] ∧
    (bulkExportRoute none none (.ok ⟨200, some t⟩) (.ok ⟨202, cl, body⟩)).1.status =
      200 ∧
    (bulkExportRoute groupId types ts fs).1.status ≠ 400 := by
  refine ⟨rfl, rfl, rfl, rfl, ?_⟩
  cases h : getAccessToken ts with
  | error e => simp [bulkExportRoute, h]
  | ok tok2 =>
      cases h2 : axiosBulkExport fs with
      | error e => simp [bulkExportRoute, h, h2]
      | ok r => simp [bulkExportRoute, h, h2]

/-- C1 counterexample.  When the authorization server answers HTTP 200 with
a body LACKING `access_token`, `getAccessToken` does not signal a failure: it
returns the `undefined` token, and the downstream FHIR call IS issued, with
the literal header `Authorization: Bearer undefined`. -/
theorem getAccessToken_missing_field_invokes_gateway :
    getAccessToken (.ok ⟨200, none⟩) = .ok none ∧
    (patientRoute (.ok ⟨200, none⟩) (.ok ⟨200, .null⟩)).2 =
      [tokenCall, epicGetCall "Patient/erXuFYUfucBZaryVksYEcMg3" none] ∧
    (epicGetCall "Patient/erXuFYUfucBZaryVksYEcMg3" none).headers =
      [("Authorization", "Bearer undefined"), ("Accept", "application/json")] :=
  ⟨rfl, rfl, rfl⟩

/-- C1 (amended).  On HTTP 200 with `access_token = T` the Token Exchange
Client returns exactly `T`; on a non-2xx response or a network error the
exchange fails, the route answers 500 and the downstream FHIR call is never
issued; but on a 2xx body lacking `access_token` no failure is signalled —
the token is `undefined` and the FHIR call IS issued with it. -/
theorem tokenExchange_contract (t m : String) (resp : TokenResponse)
    (fhir : AxiosResult FhirOutcome) (hresp : is2xx resp.status = false) :
    getAccessToken (.ok ⟨200, some t⟩) = .ok (some t) ∧
    (patientRoute (.ok resp) fhir).1.status = 500 ∧
    (patientRoute (.ok resp) fhir).2 = [tokenCall] ∧
    (patientRoute (.netError m) fhir).1.status = 500 ∧
    (patientRoute (.netError m) fhir).2 = [tokenCall] ∧
    getAccessToken (.ok ⟨200, none⟩) = .ok none ∧
    (patientRoute (.ok ⟨200, none⟩) fhir).2 =
      [tokenCall, epicGetCall "Patient/erXuFYUfucBZaryVksYEcMg3" none] := by
  refine ⟨rfl, ?_, ?_, rfl, rfl, rfl, ?_⟩
  · simp [patientRoute, getAccessToken, axiosPostToken, hresp]
  · simp [patientRoute, getAccessToken, axiosPostToken, hresp]
  · rcases fhir with r | m2
    · simp only [patientRoute, getAccessToken, axiosPostToken, axiosFhir, is2xx]
      norm_num
      split <;> rfl
    · rfl

theorem tokenExchange_contract_witness :
    is2xx ((⟨401, none⟩ : TokenResponse)).status = false ∧
    (getAccessToken (.ok ⟨200, some "T"⟩) = .ok (some "T") ∧
     (patientRoute (.ok ⟨401, none⟩) (.ok ⟨200, .null⟩)).1.status = 500 ∧
     (patientRoute (.ok ⟨401, none⟩) (.ok ⟨200, .null⟩)).2 = [tokenCall] ∧
     (patientRoute (.netError "socket hang up") (.ok ⟨200, .null⟩)).1.status = 500 ∧
     (patientRoute (.netError "socket hang up") (.ok ⟨200, .null⟩)).2 = [tokenCall] ∧
     getAccessToken (.ok ⟨200, none⟩) = .ok none ∧
     (patientRoute (.ok ⟨200, none⟩) (.ok ⟨200, .null⟩)).2 =
       [tokenCall, epicGetCall "Patient/erXuFYUfucBZaryVksYEcMg3" none]) :=
  ⟨rfl, tokenExchange_contract "T" "socket hang up" ⟨401, none⟩ (.ok ⟨200, .null⟩) rfl⟩

/-- C2 counterexample.  `GET /bulk-status` without `statusUrl` does answer
400, but the token-exchange POST (a network call) has already been issued
before the validation check: the trace is `[tokenCall]`, not `[]`. -/
theorem bulkStatus_validation_preceded_by_token_call :
    (bulkStatusRoute none (.ok ⟨200, some "T"⟩) (.ok ⟨200, .null⟩)).1.status = 400 ∧
    (bulkStatusRoute none (.ok ⟨200, some "T"⟩) (.ok ⟨200, .null⟩)).2 = [tokenCall] ∧
    tokenCall.url = EPIC_TOKEN_URL :=
  ⟨rfl, rfl, rfl⟩

/-- C2 (amended).  For every request missing a required parameter
(`statusUrl` on `/bulk-status`, `fileUrl` on `/bulk-download`, `documentUrl`
or `patientId` on `/upload-url`), when the token exchange succeeds the route
answers 400 with a descriptive message and issues no downstream FHIR call —
but the token-exchange POST is always issued first, before the validation
check. -/
theorem validation_after_token_exchange (ts : AxiosResult TokenResponse)
    (tok : Option String) (statusServer fileServer : AxiosResult FhirOutcome)
    (docServer : AxiosResult DocPostOutcome) (encounterId durl pid : Option String)
    (dateIso : String) (htok : getAccessToken ts = .ok tok) :
    bulkStatusRoute none ts statusServer =
      (⟨400, missingParamBody "Missing statusUrl parameter"⟩, [tokenCall]) ∧
    bulkDownloadRoute none ts fileServer =
      (⟨400, missingParamBody "Missing fileUrl parameter"⟩, [tokenCall]) ∧
    (jsTruthy pid = false →
      uploadUrlRoute durl pid encounterId dateIso ts docServer =
        (⟨400, .obj [("error", .str "documentUrl and patientId are required")]⟩,
          [tokenCall])) ∧
    (jsTruthy durl = false →
      uploadUrlRoute durl pid encounterId dateIso ts docServer =
        (⟨400, .obj [("error", .str "documentUrl and patientId are required")]⟩,
          [tokenCall])) := by
  refine ⟨?_, ?_, ?_, ?_⟩
  · simp [bulkStatusRoute, htok, jsTruthy]
  · simp [bulkDownloadRoute, htok, jsTruthy]
  · intro hp
    simp [uploadUrlRoute, htok, hp]
  · intro hd
    simp [uploadUrlRoute, htok, hd]

theorem validation_after_token_exchange_witness :
    getAccessToken (.ok ⟨200, some "T"⟩) = .ok (some "T") ∧
    bulkStatusRoute none (.ok ⟨200, some "T"⟩) (.ok ⟨200, .null⟩) =
      (⟨400, missingParamBody "Missing statusUrl parameter"⟩, [tokenCall]) ∧
    bulkDownloadRoute none (.ok ⟨200, some "T"⟩) (.ok ⟨200, .null⟩) =
      (⟨400, missingParamBody "Missing fileUrl parameter"⟩, [tokenCall]) ∧
    uploadUrlRoute none none none "2026-01-01T00:00:00.000Z" (.ok ⟨200, some "T"⟩)
        (.ok ⟨201, none, .null⟩) =
      (⟨400, .obj [("error", .str "documentUrl and patientId are required")]⟩,
        [tokenCall]) := by
  have h := validation_after_token_exchange (.ok ⟨200, some "T"⟩) (some "T")
    (.ok ⟨200, .null⟩) (.ok ⟨200, .null⟩) (.ok ⟨201, none, .null⟩)
    none none none "2026-01-01T00:00:00.000Z" rfl
  exact ⟨rfl, h.1, h.2.1, h.2.2.1 rfl⟩

/-- C7 counterexample.  With a DocumentReference whose `content` is `[{}]`
(first item present but WITHOUT an `attachment` object — so there is no
`content[0].attachment.url`), the property access at file-uploads.js line
138 throws, and the route answers the generic 500 "Error retrieving
document", not the claimed specific 404. -/
theorem documentRead_missing_attachment_generic_error :
    (documentRoute "D1" (.ok ⟨200, some "T"⟩) (.ok ⟨200, some [⟨none⟩], .null⟩)
        (.ok ⟨200, some ⟨some "QQ=="⟩, .null⟩)).1.status = 500 ∧
    (documentRoute "D1" (.ok ⟨200, some "T"⟩) (.ok ⟨200, some [⟨none⟩], .null⟩)
        (.ok ⟨200, some ⟨some "QQ=="⟩, .null⟩)).1.body.lookup "message" =
      some (.str "Error retrieving document") :=
  ⟨rfl, rfl⟩

/-- C7 (amended).  `GET /document/:documentId` failure modes: a missing
`content` array, an empty one, or a first item whose `attachment` object is
present but has no `url` all yield 404 with the specific message "No Binary
reference found in DocumentReference" (and the Binary GET is never issued);
a first content item with no `attachment` object at all makes the property
access throw, reported as the generic 500 "Error retrieving document"; a
Binary body that is absent or lacks `data` yields 500 with the specific
message "Binary resource does not contain data", distinct from the generic
message. -/
theorem documentRead_failures_distinct (docId t : String) (raw raw2 : Json)
    (ct d : Option String) (binServer : AxiosResult BinaryReadOutcome) :
    documentRoute docId (.ok ⟨200, some t⟩) (.ok ⟨200, none, raw⟩) binServer =
      (⟨404, .obj [("success", .bool false),
          ("message", .str "No Binary reference found in DocumentReference")]⟩,
        [tokenCall,
         { method := .get
           url := EPIC_FHIR_URL ++ "/DocumentReference/" ++ docId
           headers := [("Authorization", "Bearer " ++ t)] }]) ∧
    documentRoute docId (.ok ⟨200, some t⟩) (.ok ⟨200, some [], raw⟩) binServer =
      (⟨404, .obj [("success", .bool false),
          ("message", .str "No Binary reference found in DocumentReference")]⟩,
        [tokenCall,
         { method := .get
           url := EPIC_FHIR_URL ++ "/DocumentReference/" ++ docId
           headers := [("Authorization", "Bearer " ++ t)] }]) ∧
    documentRoute docId (.ok ⟨200, some t⟩)
        (.ok ⟨200, some [⟨some ⟨ct, d, none⟩⟩], raw⟩) binServer =
      (⟨404, .obj [("success", .bool false),
          ("message", .str "No Binary reference found in DocumentReference")]⟩,
        [tokenCall,
         { method := .get
           url := EPIC_FHIR_URL ++ "/DocumentReference/" ++ docId
           headers := [("Authorization", "Bearer " ++ t)] }]) ∧
    documentRoute docId (.ok ⟨200, some t⟩)
        (.ok ⟨200, some [⟨some ⟨none, none, some "Binary/B1"⟩⟩], raw⟩)
        (.ok ⟨200, some ⟨none⟩, raw2⟩) =
      (⟨500, .obj [("success", .bool false),
          ("message", .str "Binary resource does not contain data"),
          ("epicResponse", raw2)]⟩,
        [tokenCall,
         { method := .get
           url := EPIC_FHIR_URL ++ "/DocumentReference/" ++ docId
           headers := [("Authorization", "Bearer " ++ t)] },
         { method := .get
           url := EPIC_FHIR_URL ++ "/Binary/B1"
           headers := [("Authorization", "Bearer " ++ t)] }]) ∧
    documentRoute docId (.ok ⟨200, some t⟩)
        (.ok ⟨200, some [⟨some ⟨none, none, some "Binary/B1"⟩⟩], raw⟩)
        (.ok ⟨200, none, raw2⟩) =
      (⟨500, .obj [("success", .bool false),
          ("message", .str "Binary resource does not contain data"),
          ("epicResponse", raw2)]⟩,
        [tokenCall,
         { method := .get
           url := EPIC_FHIR_URL ++ "/DocumentReference/" ++ docId
           headers := [("Authorization", "Bearer " ++ t)] },
         { method := .get
           url := EPIC_FHIR_URL ++ "/Binary/B1"
           headers := [("Authorization", "Bearer " ++ t)] }]) ∧
    documentRoute docId (.ok ⟨200, some t⟩) (.ok ⟨200, some [⟨none⟩], raw⟩)
        binServer =
      (⟨500, errorEnvelopeJ "Error retrieving document"
          (.str undefinedUrlReadMessage)⟩,
        [tokenCall,
         { method := .get
           url := EPIC_FHIR_URL ++ "/DocumentReference/" ++ docId
           headers := [("Authorization", "Bearer " ++ t)] }]) ∧
    ("No Binary reference found in DocumentReference" : String) ≠
      "Error retrieving document" ∧
    ("Binary resource does not contain data" : String) ≠
      "Error retrieving document" :=
  ⟨rfl, rfl, rfl, rfl, rfl, rfl, by decide, by decide⟩

/-- C5.  The DocumentReference built by `POST /upload-url` stores the
document URL as base64-encoded `text/plain` attachment data;
`GET /document/:documentId` base64-decodes the fetched Binary's `data` back
to the original string, and decoding after encoding is the identity on
strings; and an upstream `Location` header ending in `DocumentReference/123`
yields the response `{success: true, documentId: "123"}`, with the built
DocumentReference sent as the body of the one DocumentReference POST. -/
theorem documentUrl_roundtrip (documentUrl patientId dateIso t docId : String)
    (encounterId : Option String) (raw raw2 : Json)
    (hdu : documentUrl ≠ "") (hpi : patientId ≠ "") :
    ((mkDocReference documentUrl patientId encounterId dateIso).lookup "content"
        |>.bind (fun j => j.arrGet 0) |>.bind (fun j => j.lookup "attachment")
        |>.bind (fun j => j.lookup "contentType")) = some (.str "text/plain") ∧
    ((mkDocReference documentUrl patientId encounterId dateIso).lookup "content"
        |>.bind (fun j => j.arrGet 0) |>.bind (fun j => j.lookup "attachment")
        |>.bind (fun j => j.lookup "data")) =
      some (.str (jsStrToBase64 documentUrl)) ∧
    bufferBase64ToUtf8 (jsStrToBase64 documentUrl) = documentUrl ∧
    (documentRoute docId (.ok ⟨200, some t⟩)
        (.ok ⟨200, some [⟨some ⟨none, none, some "Binary/B1"⟩⟩], raw⟩)
        (.ok ⟨200, some ⟨some (jsStrToBase64 documentUrl)⟩, raw2⟩)).1 =
      ⟨200, .obj [("success", .bool true), ("documentUrl", .str documentUrl)]⟩ ∧
    uploadUrlRoute (some documentUrl) (some patientId) encounterId dateIso
        (.ok ⟨200, some t⟩)
        (.ok ⟨201,
          some "https://fhir.epic.com/interconnect-fhir-oauth/api/FHIR/R4/DocumentReference/123",
          raw⟩) =
      (⟨200, .obj [("success", .bool true), ("documentId", .str "123")]⟩,
        [tokenCall,
         { method := .post
           url := EPIC_FHIR_URL ++ "/DocumentReference"
           headers := [("Content-Type", "application/json"),
                       ("Authorization", "Bearer " ++ t)]
           body := some (mkDocReference documentUrl patientId encounterId dateIso) }]) := by
  have hb64 : jsStrToBase64 documentUrl ≠ "" := jsStrToBase64_ne_empty hdu
  have htd : jsTruthy (some documentUrl) = true := by simp [jsTruthy, hdu]
  have htp : jsTruthy (some patientId) = true := by simp [jsTruthy, hpi]
  refine ⟨?_, ?_, bufferBase64ToUtf8_jsStrToBase64 documentUrl, ?_, ?_⟩
  · rfl
  · rfl
  · simp [documentRoute, getAccessToken, axiosPostToken, axiosDocRead,
      axiosBinaryRead, is2xx, jsTruthy, hb64, bufferBase64ToUtf8_jsStrToBase64]
  · have hloc : extractDocumentId
        (some "https://fhir.epic.com/interconnect-fhir-oauth/api/FHIR/R4/DocumentReference/123") =
        some "123" := rfl
    simp [uploadUrlRoute, getAccessToken, axiosPostToken, axiosDocPost, is2xx,
      htd, htp, hloc, bearerValue]

theorem documentUrl_roundtrip_witness :
    ("https://x/doc" : String) ≠ "" ∧ ("P1" : String) ≠ "" ∧
    bufferBase64ToUtf8 (jsStrToBase64 "https://x/doc") = "https://x/doc" ∧
    (uploadUrlRoute (some "https://x/doc") (some "P1") none "2026-01-01T00:00:00.000Z"
        (.ok ⟨200, some "T"⟩)
        (.ok ⟨201,
          some "https://fhir.epic.com/interconnect-fhir-oauth/api/FHIR/R4/DocumentReference/123",
          .null⟩)).1 =
      ⟨200, .obj [("success", .bool true), ("documentId", .str "123")]⟩ ∧
    (documentRoute "doc1" (.ok ⟨200, some "T"⟩)
        (.ok ⟨200, some [⟨some ⟨none, none, some "Binary/B1"⟩⟩], .null⟩)
        (.ok ⟨200, some ⟨some (jsStrToBase64 "https://x/doc")⟩, .null⟩)).1 =
      ⟨200, .obj [("success", .bool true), ("documentUrl", .str "https://x/doc")]⟩ := by
  have h := documentUrl_roundtrip "https://x/doc" "P1" "2026-01-01T00:00:00.000Z"
    "T" "doc1" none .null .null (by decide) (by decide)
  obtain ⟨-, -, h3, h4, h5⟩ := h
  exact ⟨by decide, by decide, h3, by rw [h5], h4⟩

end Epic
